import Mathlib

/-!
# Commitment-Payment Ledger and Reminder Scheduler: a shallow embedding

This file embeds the ledger/notification core of `app.py` (a Flask
application tracking member pledges ("engagements"), payments
("paiements") and WhatsApp notifications) into Lean 4 and proves or
refutes the specification's claims about it.

Conventions of the embedding:
* Monetary amounts are `ℚ`.  The source parses form fields with Python
  `float(...)`; a form field is embedded as `Option ℚ` (`none` = the
  parse raised).  The binary-float64 nature of the source's amounts is
  modelled separately by `isF64` for the numeric-policy claim.
* Dates are day numbers (`ℕ`); a date form field is `Option ℕ`
  (`none` = `datetime.strptime` raised).
* The database session is a `DB` record of lists; `db.session.commit()`
  is modelled by returning the updated record.  An uncaught Python
  exception after a commit is an explicit error outcome carrying the
  already-committed state (SQLAlchemy's `rollback` cannot undo a commit).
* The WhatsApp gateway `envoyer_whatsapp` lives in `utils.py`, which is
  not part of the sources; per the spec it is an opaque capability that
  reports success or failure, modelled as a total function
  `GW := String → String → Bool` of (destination, credential).  The
  source never inspects its result.
* Message templates are embedded by the data they interpolate
  (structures of name/amount/date fields), not by rendered strings.
-/

/-- A baptism card (`CarteBapteme`); only the `nom` field is read by the
ledger/notification flows. -/
structure Carte where
  nom : String
deriving Repr, DecidableEq

/-- A member (`Membre`): system identity is the phone number; the
CallMeBot API key is the optional messaging credential; `carte` is the
optional linked `CarteBapteme` row (`membre.cartebapteme`). -/
structure Membre where
  id : ℕ
  codeMembre : String
  telephone : String
  apikey : Option String
  carte : Option Carte
deriving Repr, DecidableEq

/-- A commitment (`Engagement`): `statut` is a stored string column
(the source uses `'en cours'` for open and `'payé'` for settled). -/
structure Engagement where
  id : ℕ
  membreId : ℕ
  montantTotal : ℚ
  dateLimite : ℕ
  description : String
  statut : String
deriving Repr, DecidableEq

/-- A payment (`Paiement`) applied against a commitment. -/
structure Paiement where
  id : ℕ
  engagementId : ℕ
  montant : ℚ
  datePaiement : ℕ
deriving Repr, DecidableEq

/-- A notification record (`Notification`): outcome strings used by the
source are `"envoyée"` (sent); the spec-modelled scheduler additionally
uses `"échec"` (failed) and `"ignorée"` (skipped, no credential). -/
structure Notification where
  membreId : ℕ
  engagementId : ℕ
  msgNom : String
  msgTotal : ℚ
  msgPaye : ℚ
  msgReste : ℚ
  msgDateLimite : ℕ
  statut : String
  dateEnvoi : ℕ
deriving Repr, DecidableEq

/-- The persistent store (`db.session` over the four tables the core
touches). -/
structure DB where
  membres : List Membre
  engagements : List Engagement
  paiements : List Paiement
  notifications : List Notification
deriving Repr, DecidableEq

/-- The opaque messaging gateway (`envoyer_whatsapp` in `utils.py`, not
among the sources): takes (destination = telephone, credential = API
key) and reports success/failure; the callers in `app.py` ignore the
result. -/
def GW : Type := String → String → Bool

/-- Python truthiness of an optional string column (`None` and `""` are
falsy). -/
def truthyS : Option String → Bool
  | none => false
  | some s => s ≠ ""

/-- The notification guard of the source (`membre and
membre.apikey_callmebot and membre.telephone`, app.py lines 639, 688):
the member has a truthy messaging credential and destination. -/
def hasCreds (m : Membre) : Bool :=
  truthyS m.apikey && m.telephone != ""

/-- The display name of a member (`membre.cartebapteme.nom if
membre.cartebapteme and membre.cartebapteme.nom else membre.code_membre`,
app.py line 645): the card's name when present and nonempty, otherwise
the generated member code. -/
def nomAffiche (m : Membre) : String :=
  match m.carte with
  | some c => if c.nom ≠ "" then c.nom else m.codeMembre
  | none => m.codeMembre

/-- `Engagement.query.get(id)`. -/
def findEngagement (db : DB) (id : ℕ) : Option Engagement :=
  db.engagements.find? (fun e => e.id == id)

/-- `Membre.query.get` via the `engagement.membre` relationship. -/
def findMembre (db : DB) (id : ℕ) : Option Membre :=
  db.membres.find? (fun m => m.id == id)

/-- `Paiement.query.get_or_404(id)`. -/
def findPaiement (db : DB) (id : ℕ) : Option Paiement :=
  db.paiements.find? (fun p => p.id == id)

/-- Sum of the payments recorded against commitment `eid`
(`sum(p.montant for p in engagement.paiements)`). -/
def totalPaye (db : DB) (eid : ℕ) : ℚ :=
  ((db.paiements.filter (fun p => p.engagementId == eid)).map Paiement.montant).sum

/-- Modelled from the spec: `Engagement.montant_restant()` is defined in
`models.py`, which is not among the sources.  Per the spec
(`amountRemaining(commitment) → decimal`): "returns
`max(0, total − Σ payments)`". -/
def montant_restant (db : DB) (e : Engagement) : ℚ :=
  max 0 (e.montantTotal - totalPaye db e.id)

/-- Outcome of the `ajouter_paiement` POST handler as seen by the
caller: a flashed validation error, an uncaught-exception flash from the
outer `except` block, or the rendered receipt. -/
inductive PayOutcome where
  | errEngagement                -- "Engagement introuvable"
  | errMontant                   -- "Montant invalide"
  | errException                 -- outer except: rollback + "Erreur: ..."
  | receipt (nom : String) (montant : ℚ) (datePaiement : ℕ)
      (engagementDate : ℕ) (totalEngage : ℚ) (reste : ℚ)
deriving Repr, DecidableEq

/-- `ajouter_paiement` (app.py lines 516–572), POST path.
`montantStr` is the parsed `float(request.form['montant'])`
(`none` = the parse raised); `dateStr` likewise for
`datetime.strptime(date_str, '%Y-%m-%d')`; `today` is
`datetime.utcnow().date()`.  The payment row is committed before the
notification message and the receipt data are built; if the member row
is missing or has no linked `cartebapteme`, the dereference
`membre.cartebapteme.nom` raises after the commit and the outer
`except` flashes an error — the rollback does not undo the commit, so
the payment stays persisted. -/
def ajouter_paiement (gw : GW) (today : ℕ) (db : DB)
    (engagementId : ℕ) (montantStr : Option ℚ) (dateStr : Option ℕ) :
    DB × PayOutcome :=
  match findEngagement db engagementId with
  | none => (db, .errEngagement)
  | some engagement =>
    match montantStr with
    | none => (db, .errMontant)
    | some montant =>
      if montant ≤ 0 then (db, .errMontant)
      else
        let date_paiement := dateStr.getD today
        let paiement : Paiement :=
          ⟨db.paiements.length + 1, engagement.id, montant, date_paiement⟩
        let db1 : DB := { db with paiements := db.paiements ++ [paiement] }
        match findMembre db1 engagement.membreId with
        | none => (db1, .errException)      -- receipt derefs membre.cartebapteme
        | some membre =>
          match membre.carte with
          | none => (db1, .errException)    -- .nom on None raises (msg or receipt)
          | some carte =>
            let _ :=
              if truthyS membre.apikey then
                gw membre.telephone (membre.apikey.getD "")
              else true
            (db1, .receipt carte.nom montant date_paiement
              engagement.dateLimite engagement.montantTotal
              (montant_restant db1 engagement))

/-- Outcome of the `modifier_paiement` POST handler. -/
inductive EditPayOutcome where
  | err404          -- get_or_404 aborts
  | errMontant      -- "Montant invalide"
  | errDate         -- "Date incorrecte"
  | errException    -- outer except: float(...) raised, rollback
  | ok
deriving Repr, DecidableEq

/-- `modifier_paiement` (app.py lines 589–614).  `float(request.form
.get('montant'))` raising (absent / not a number) lands in the outer
`except` (`errException`); `montant <= 0` flashes and returns; the date
is parsed and assigned next (a parse failure returns before any field
was changed); only then is `paiement.montant` assigned and the session
committed, so every error path leaves the stored row unchanged. -/
def modifier_paiement (db : DB) (id : ℕ)
    (montantStr : Option ℚ) (dateStr : Option ℕ) : DB × EditPayOutcome :=
  match findPaiement db id with
  | none => (db, .err404)
  | some _ =>
    match montantStr with
    | none => (db, .errException)
    | some montant =>
      if montant ≤ 0 then (db, .errMontant)
      else
        match dateStr with
        | none => (db, .errDate)
        | some d =>
          let db1 : DB :=
            { db with paiements := db.paiements.map (fun p =>
                if p.id == id then { p with montant := montant, datePaiement := d }
                else p) }
          (db1, .ok)

/-- Outcome of the `ajouter_engagement` POST handler (admin route). -/
inductive EngOutcome where
  | errMembre       -- "Membre introuvable"
  | errMontant      -- "Le montant doit être un nombre positif"
  | errDate         -- "Format de date incorrect"
  | errException    -- outer except after commit (WhatsApp message deref)
  | ok
deriving Repr, DecidableEq

/-- The fresh `Engagement` row persisted by the creation handlers.
Modelled from the spec for the `statut` default: `models.py` (not among
the sources) declares the column's default; the spec says a new
commitment is persisted OPEN, which the source renders as `'en cours'`. -/
def nouvelEngagement (db : DB) (membreId : ℕ) (montant : ℚ)
    (dateLimite : ℕ) (description : String) : Engagement :=
  ⟨db.engagements.length + 1, membreId, montant, dateLimite, description, "en cours"⟩

/-- `ajouter_engagement` (app.py lines 415–463), POST path.  Validation
order follows the source: member lookup, then amount parse and
positivity, then date parse; only then is the row committed.  After the
commit, if the member has an API key the WhatsApp message dereferences
`membre.cartebapteme.nom` without a guard (line 453): a member with a
credential but no card raises into the outer `except` — the commitment
stays persisted. -/
def ajouter_engagement (gw : GW) (db : DB) (membreId : ℕ)
    (montantStr : Option ℚ) (dateStr : Option ℕ) (description : String) :
    DB × EngOutcome :=
  match findMembre db membreId with
  | none => (db, .errMembre)
  | some membre =>
    match montantStr with
    | none => (db, .errMontant)
    | some montant =>
      if montant ≤ 0 then (db, .errMontant)
      else
        match dateStr with
        | none => (db, .errDate)
        | some date_limite =>
          let db1 : DB := { db with engagements :=
            db.engagements ++ [nouvelEngagement db membreId montant date_limite description] }
          if truthyS membre.apikey then
            match membre.carte with
            | none => (db1, .errException)   -- membre.cartebapteme.nom raises
            | some _ =>
              let _ := gw membre.telephone (membre.apikey.getD "")
              (db1, .ok)
          else (db1, .ok)

/-- Outcome of the member self-subscription handler. -/
inductive SousOutcome where
  | errProfil       -- "Votre profil membre n'est pas trouvé."
  | errMontant
  | errDate
  | ok
deriving Repr, DecidableEq

/-- `souscrire_engagement_membre` (app.py lines 774–824), POST path.
The member is found by the logged-in user's phone number; amount and
date are validated in that order; the commitment is committed and the
optional WhatsApp confirmation guards the card dereference properly
(`membre.cartebapteme.nom if membre.cartebapteme else code_membre`). -/
def souscrire_engagement_membre (gw : GW) (db : DB) (telephone : String)
    (montantStr : Option ℚ) (dateStr : Option ℕ) (description : String) :
    DB × SousOutcome :=
  match db.membres.find? (fun m => m.telephone == telephone) with
  | none => (db, .errProfil)
  | some membre =>
    match montantStr with
    | none => (db, .errMontant)
    | some montant =>
      if montant ≤ 0 then (db, .errMontant)
      else
        match dateStr with
        | none => (db, .errDate)
        | some date_limite =>
          let db1 : DB := { db with engagements :=
            db.engagements ++ [nouvelEngagement db membre.id montant date_limite description] }
          let _ :=
            if truthyS membre.apikey then gw membre.telephone (membre.apikey.getD "")
            else true
          (db1, .ok)

/-- Outcome of the manual single-commitment trigger. -/
inductive NotifOutcome where
  | notFound        -- get_or_404 aborts
  | warned          -- "Notification impossible : coordonnées ... incomplètes."
  | sent            -- "Notification envoyée avec succès."
deriving Repr, DecidableEq

/-- `notifier_membre_engagement` (app.py lines 632–677): the manual
single-commitment trigger (`notifyOne`).  When the member exists and has
a truthy API key and telephone, the reminder message is built (display
name falls back to `code_membre` when the card or its name is missing),
the gateway is called (its result is ignored), and one `Notification`
row with `statut = 'envoyée'` is committed; otherwise nothing is written
and no gateway call occurs.  The third component of the result counts
gateway invocations. -/
def notifier_membre_engagement (gw : GW) (now : ℕ) (db : DB) (id : ℕ) :
    DB × NotifOutcome × ℕ :=
  match findEngagement db id with
  | none => (db, .notFound, 0)
  | some engagement =>
    match findMembre db engagement.membreId with
    | none => (db, .warned, 0)
    | some membre =>
      if hasCreds membre then
        let total_paye := totalPaye db engagement.id
        let reste_a_payer := montant_restant db engagement
        let nom_affiche := nomAffiche membre
        let _ := gw membre.telephone (membre.apikey.getD "")
        let notif : Notification :=
          ⟨membre.id, engagement.id, nom_affiche, engagement.montantTotal,
           total_paye, reste_a_payer, engagement.dateLimite, "envoyée", now⟩
        ({ db with notifications := db.notifications ++ [notif] }, .sent, 1)
      else (db, .warned, 0)

/-- Loop body list of `notifier_tous_membres`: the engagements whose
`statut` differs from `'payé'` (`Engagement.query.filter(Engagement
.statut != 'payé')`). -/
def nonPayes (db : DB) : List Engagement :=
  db.engagements.filter (fun e => e.statut != "payé")

/-- Whether the bulk loop sends for engagement `e`: `membre and
membre.apikey_callmebot and membre.telephone` in the source. -/
def credentiale (db : DB) (e : Engagement) : Bool :=
  match findMembre db e.membreId with
  | none => false
  | some m => hasCreds m

/-- The loop of `notifier_tous_membres`, threading the attempt counter
`cpt`.  A member that passes the credential test but has no linked card
makes `membre.cartebapteme.nom` raise (line 689), aborting the whole
request (`Except.error`). -/
def notifTousGo (gw : GW) (db : DB) : List Engagement → ℕ → Except Unit ℕ
  | [], cpt => .ok cpt
  | e :: rest, cpt =>
    match findMembre db e.membreId with
    | none => notifTousGo gw db rest cpt
    | some m =>
      if hasCreds m then
        match m.carte with
        | none => .error ()
        | some _ =>
          let _ := gw m.telephone (m.apikey.getD "")
          notifTousGo gw db rest (cpt + 1)
      else notifTousGo gw db rest cpt

/-- `notifier_tous_membres` (app.py lines 680–693): the bulk trigger
(`notifyAllUnsettled`).  Iterates the non-settled engagements, sends one
WhatsApp message per credentialed member, counts only those sends, and
flashes the count; it writes nothing to the database (the store is
returned unchanged on success). -/
def notifier_tous_membres (gw : GW) (db : DB) : Except Unit (DB × ℕ) :=
  (notifTousGo gw db (nonPayes db) 0).map (fun cpt => (db, cpt))

/-- An automatic-reminder outcome in the sense of the idempotence guard:
SENT (`"envoyée"`) or FAILED (`"échec"`); a skip does not count. -/
def isAutoStatut (s : String) : Bool :=
  s == "envoyée" || s == "échec"

/-- The records that count toward the idempotence guard for commitment
`eid` and period start `ps`: automatic-outcome (SENT/FAILED) records
timestamped at or after `ps`. -/
def autoPred (ps eid : ℕ) (n : Notification) : Bool :=
  n.engagementId == eid && isAutoStatut n.statut && decide (ps ≤ n.dateEnvoi)

/-- Modelled from the spec: the candidate filter of the periodic tick
(`notifier_engagements_proches` lives in `tasks.py`, which is not among
the sources).  Per the spec, a commitment "has already been notified"
within the period starting at `ps` when some SENT or FAILED
`NotificationRecord` for it carries a timestamp at or after `ps`. -/
def hasAutoSince (db : DB) (eid ps : ℕ) : Bool :=
  db.notifications.any (autoPred ps eid)

/-- Modelled from the spec: the periodic tick's candidate set — all
commitments with `status = OPEN` (not `'payé'`) that have not already
received a SENT or FAILED record since the start `ps` of the current
period. -/
def candidats (ps : ℕ) (db : DB) : List Engagement :=
  db.engagements.filter
    (fun e => e.statut != "payé" && !hasAutoSince db e.id ps)

/-- Modelled from the spec: the record a tick appends for one candidate
(`tasks.py` is not among the sources).  Per the spec's dispatch rule: no
credential or no destination → skip, no gateway call; otherwise the
gateway's success/failure determines SENT/FAILED; every outcome is
appended as a record, timestamped `now`. -/
def tickRecord (gw : GW) (now : ℕ) (db : DB) (e : Engagement) : Notification :=
  match findMembre db e.membreId with
  | none =>
    ⟨e.membreId, e.id, "", e.montantTotal, totalPaye db e.id,
     montant_restant db e, e.dateLimite, "ignorée", now⟩
  | some m =>
    if hasCreds m then
      let nom := nomAffiche m
      let st := if gw m.telephone (m.apikey.getD "") then "envoyée" else "échec"
      ⟨m.id, e.id, nom, e.montantTotal, totalPaye db e.id,
       montant_restant db e, e.dateLimite, st, now⟩
    else
      ⟨m.id, e.id, m.codeMembre, e.montantTotal, totalPaye db e.id,
       montant_restant db e, e.dateLimite, "ignorée", now⟩

/-- Modelled from the spec: one execution of the periodic reminder job
(`runPeriodicTick` / `notifier_engagements_proches` in `tasks.py`, not
among the sources).  The candidate set is computed from the store's
state, then one record per candidate is appended; the ledger tables are
not mutated. -/
def runPeriodicTick (ps now : ℕ) (gw : GW) (db : DB) : DB :=
  { db with notifications :=
      db.notifications ++ (candidats ps db).map (tickRecord gw now db) }

/-- How many automatic (SENT or FAILED) records commitment `eid` has
received since period start `ps`. -/
def autoCountSince (ps : ℕ) (db : DB) (eid : ℕ) : ℕ :=
  db.notifications.countP (autoPred ps eid)

/-- Whether the manual trigger on commitment `eid` takes its sending
branch: the commitment exists and its member is found with a truthy API
key and telephone (the condition of app.py line 639). -/
def credentialedTarget (db : DB) (eid : ℕ) : Bool :=
  match findEngagement db eid with
  | none => false
  | some e =>
    match findMembre db e.membreId with
    | none => false
    | some m => hasCreds m

/-- The amounts the source can store: it parses every monetary form
field with Python `float(...)` (app.py lines 430, 478, 530, 596, 790),
an IEEE-754 binary64 value, i.e. `m · 2^e` with `|m| < 2^53`. -/
def isF64 (q : ℚ) : Prop :=
  ∃ m e : ℤ, m.natAbs < 2 ^ 53 ∧ q = (m : ℚ) * 2 ^ e

/-! ## Concrete fixtures for counterexamples and witnesses -/

/-- A gateway that always reports success. -/
def gwOk : GW := fun _ _ => true

/-- A member with a card ("Marie"), a phone and an API key. -/
def membreCle : Membre :=
  ⟨1, "CBCA-VUL-0001", "+243970000001", some "APIKEY0001", some ⟨"Marie"⟩⟩

/-- A member with a card but no API key (no messaging credential). -/
def membreSansCle : Membre :=
  ⟨2, "CBCA-VUL-0002", "+243970000002", none, some ⟨"Jean"⟩⟩

/-- A member with an API key and phone but no linked baptism card. -/
def membreSansCarte : Membre :=
  ⟨3, "CBCA-VUL-0003", "+243970000003", some "APIKEY0003", none⟩

/-- An open 100-dollar commitment of the credential-less member. -/
def engSansCle : Engagement := ⟨2, 2, 100, 30, "promesse", "en cours"⟩

/-- An open 100-dollar commitment of the credentialed member. -/
def engCle : Engagement := ⟨1, 1, 100, 30, "promesse", "en cours"⟩

/-- An open 100-dollar commitment of the card-less member. -/
def engSansCarte : Engagement := ⟨3, 3, 100, 30, "promesse", "en cours"⟩

/-- Store with the credential-less member and their open commitment. -/
def dbSansCle : DB := ⟨[membreSansCle], [engSansCle], [], []⟩

/-- Store with the credentialed member and their open commitment. -/
def dbCle : DB := ⟨[membreCle], [engCle], [], []⟩

/-- Store with the card-less member and their open commitment. -/
def dbSansCarte : DB := ⟨[membreSansCarte], [engSansCarte], [], []⟩

/-! ## C4: amountRemaining is the clamped difference, never negative -/

/-- C4: for every commitment, `amountRemaining` equals
`max(0, total − Σ payments)` and is therefore never negative; when the
payments exceed the total it is exactly 0, otherwise exactly the
difference. -/
theorem amountRemaining_clamped_nonneg (db : DB) (e : Engagement) :
    montant_restant db e = max 0 (e.montantTotal - totalPaye db e.id)
    ∧ 0 ≤ montant_restant db e
    ∧ (e.montantTotal ≤ totalPaye db e.id → montant_restant db e = 0)
    ∧ (totalPaye db e.id ≤ e.montantTotal →
        montant_restant db e = e.montantTotal - totalPaye db e.id) := by
  refine ⟨rfl, le_max_left _ _, fun h => ?_, fun h => ?_⟩
  · simp [montant_restant, max_eq_left, sub_nonpos.mpr h]
  · simp [montant_restant, max_eq_right, sub_nonneg.mpr h]

/-- Closed instance of the over-payment clamp: a 100-dollar commitment
with 120 dollars paid has 0 remaining. -/
theorem amountRemaining_clamped_nonneg_overpay :
    montant_restant
      ⟨[], [engCle], [⟨1, 1, 120, 5⟩], []⟩ engCle = 0 :=
  (amountRemaining_clamped_nonneg ⟨[], [engCle], [⟨1, 1, 120, 5⟩], []⟩ engCle).2.2.1
    (by norm_num [engCle, totalPaye])

/-! ## C1: payment mutations do not recompute the commitment status -/

/-- C1 counterexample: recording a 100-dollar payment against the open
100-dollar commitment `engSansCle` brings the paid sum to the total,
yet the commitment row afterwards is unchanged — its `statut` is still
`"en cours"`, not the settled marker `"payé"` the claim requires. -/
theorem payment_settles_status_cex :
    engSansCle.montantTotal
        ≤ totalPaye (ajouter_paiement gwOk 5 dbSansCle 2 (some 100) (some 5)).1 2
    ∧ (ajouter_paiement gwOk 5 dbSansCle 2 (some 100) (some 5)).1.engagements
        = [engSansCle]
    ∧ engSansCle.statut = "en cours" := by
  refine ⟨?_, rfl, rfl⟩
  norm_num [ajouter_paiement, findEngagement, findMembre, dbSansCle, engSansCle,
    membreSansCle, totalPaye]

/-- C1 amended: neither recording a new payment (`ajouter_paiement`)
nor editing one (`modifier_paiement`) touches the commitment table at
all, whatever the inputs: the stored `statut` is never recomputed by a
payment mutation (it only changes through the explicit commitment-edit
form). -/
theorem payment_mutation_preserves_statut (gw : GW) (today : ℕ) (db : DB)
    (eid pid : ℕ) (ms : Option ℚ) (ds : Option ℕ) :
    (ajouter_paiement gw today db eid ms ds).1.engagements = db.engagements
    ∧ (modifier_paiement db pid ms ds).1.engagements = db.engagements := by
  constructor
  · unfold ajouter_paiement
    repeat' split <;> try rfl
    all_goals (dsimp only; repeat' split <;> try rfl)
  · unfold modifier_paiement
    repeat' split <;> try rfl

/-! ## C10: the payment edit is atomic on error -/

/-- C10: whenever the new amount is absent/not a number (`ms = none`),
non-positive, or the new date fails to parse (`ds = none`), the edit
handler returns without committing: the store is exactly the input
store and the outcome is not `ok`. -/
theorem modifier_paiement_atomic_on_error (db : DB) (pid : ℕ)
    (ms : Option ℚ) (ds : Option ℕ)
    (h : ms = none ∨ (∃ m, ms = some m ∧ m ≤ 0) ∨ ds = none) :
    (modifier_paiement db pid ms ds).1 = db
    ∧ (modifier_paiement db pid ms ds).2 ≠ .ok := by
  unfold modifier_paiement
  obtain rfl | ⟨m, rfl, hle⟩ | rfl := h
  · cases findPaiement db pid <;> simp
  · cases findPaiement db pid <;> simp [hle]
  · cases findPaiement db pid
    · simp
    · cases ms
      · simp
      · dsimp only
        split <;> simp

/-- Closed instance of the edit atomicity: an edit with amount −5 on
the store `dbCle` changes nothing and is rejected. -/
theorem modifier_paiement_atomic_on_error_witness :
    (modifier_paiement dbCle 1 (some (-5)) (some 3)).1 = dbCle
    ∧ (modifier_paiement dbCle 1 (some (-5)) (some 3)).2 ≠ .ok :=
  modifier_paiement_atomic_on_error dbCle 1 (some (-5)) (some 3)
    (Or.inr (Or.inl ⟨-5, rfl, by norm_num⟩))

/-! ## C7: recordPayment validation and the date-defaulting leniency -/

/-- C7: recording a payment fails (persisting nothing) when the
commitment is missing or the amount is absent/non-positive; with a
valid amount, a missing/unparseable payment date does not drop the
payment — it is persisted with the date defaulted to today. -/
theorem recordPayment_validation_date_default (gw : GW) (today : ℕ)
    (db : DB) (eid : ℕ) (ms : Option ℚ) :
    (findEngagement db eid = none →
      ∀ ds, ajouter_paiement gw today db eid ms ds = (db, .errEngagement))
    ∧ (∀ e, findEngagement db eid = some e → ms = none →
      ∀ ds, ajouter_paiement gw today db eid ms ds = (db, .errMontant))
    ∧ (∀ e m, findEngagement db eid = some e → ms = some m → m ≤ 0 →
      ∀ ds, ajouter_paiement gw today db eid ms ds = (db, .errMontant))
    ∧ (∀ e m, findEngagement db eid = some e → ms = some m → 0 < m →
      (ajouter_paiement gw today db eid ms none).1.paiements
        = db.paiements ++ [⟨db.paiements.length + 1, e.id, m, today⟩]) := by
  refine ⟨fun h ds => ?_, fun e he hms ds => ?_, fun e m he hms hle ds => ?_,
    fun e m he hms hm => ?_⟩
  · unfold ajouter_paiement; rw [h]
  · unfold ajouter_paiement; rw [he, hms]
  · unfold ajouter_paiement; rw [he, hms]; exact if_pos hle
  · unfold ajouter_paiement
    simp only [he, hms]
    rw [if_neg (not_le.mpr hm)]
    repeat' split
    all_goals rfl

/-- Closed instances of C7: a −3 amount is rejected on `dbCle`, and a
40-dollar payment with an unparseable date is persisted dated today
(day 7). -/
theorem recordPayment_validation_date_default_witness :
    ajouter_paiement gwOk 7 dbCle 1 (some (-3)) (some 9) = (dbCle, .errMontant)
    ∧ (ajouter_paiement gwOk 7 dbCle 1 (some 40) none).1.paiements = [⟨1, 1, 40, 7⟩] := by
  constructor
  · exact (recordPayment_validation_date_default gwOk 7 dbCle 1 (some (-3))).2.2.1
      engCle (-3) rfl rfl (by norm_num) (some 9)
  · exact (recordPayment_validation_date_default gwOk 7 dbCle 1 (some 40)).2.2.2
      engCle 40 rfl rfl (by norm_num)

/-! ## C9: the receipt crash happens after the commit; the payment stays -/

/-- `findMembre` ignores the payment table. -/
theorem findMembre_set_paiements (db : DB) (ps : List Paiement) (i : ℕ) :
    findMembre { db with paiements := ps } i = findMembre db i := rfl

/-- C9: for a valid-amount payment submission whose member has no linked
baptism card, the handler commits the payment row and then crashes on
the unguarded `membre.cartebapteme.nom` while building the receipt: the
caller sees the error flash, yet the payment is persisted (the
`rollback` in the handler cannot undo the earlier commit). -/
theorem payment_persists_after_receipt_crash (gw : GW) (today : ℕ) (db : DB)
    (eid : ℕ) (m : ℚ) (ds : Option ℕ) (e : Engagement) (mem : Membre)
    (hfe : findEngagement db eid = some e)
    (hm : 0 < m)
    (hmem : findMembre db e.membreId = some mem)
    (hcarte : mem.carte = none) :
    ajouter_paiement gw today db eid (some m) ds =
      ({ db with paiements :=
          db.paiements ++ [⟨db.paiements.length + 1, e.id, m, ds.getD today⟩] },
       .errException) := by
  unfold ajouter_paiement
  simp only [hfe]
  rw [if_neg (not_le.mpr hm)]
  simp only [findMembre_set_paiements, hmem, hcarte]

/-- Closed instance of C9 on the card-less member's store: the payment
is persisted and the outcome is the exception flash. -/
theorem payment_persists_after_receipt_crash_witness :
    ajouter_paiement gwOk 7 dbSansCarte 3 (some 40) none =
      ({ dbSansCarte with paiements := [⟨1, 3, 40, 7⟩] }, .errException) :=
  payment_persists_after_receipt_crash gwOk 7 dbSansCarte 3 40 none engSansCarte
    membreSansCarte rfl (by norm_num) rfl rfl

/-! ## C6: createCommitment validation -/

/-- C6: both commitment-creation handlers fail — persisting nothing —
when the member is missing, the amount is absent/non-positive, or the
due date fails to parse, and otherwise persist exactly one new
commitment whose stored `statut` is the OPEN marker `"en cours"`. -/
theorem createCommitment_validation (gw : GW) (db : DB) (mid : ℕ)
    (tel desc : String) (ms : Option ℚ) (ds : Option ℕ) :
    (findMembre db mid = none →
      ajouter_engagement gw db mid ms ds desc = (db, .errMembre))
    ∧ (∀ mem, findMembre db mid = some mem → ms = none →
      ajouter_engagement gw db mid ms ds desc = (db, .errMontant))
    ∧ (∀ mem m, findMembre db mid = some mem → ms = some m → m ≤ 0 →
      ajouter_engagement gw db mid ms ds desc = (db, .errMontant))
    ∧ (∀ mem m, findMembre db mid = some mem → ms = some m → 0 < m → ds = none →
      ajouter_engagement gw db mid ms ds desc = (db, .errDate))
    ∧ (∀ mem m d, findMembre db mid = some mem → ms = some m → 0 < m → ds = some d →
      (ajouter_engagement gw db mid ms ds desc).1.engagements
        = db.engagements ++ [nouvelEngagement db mid m d desc])
    ∧ (db.membres.find? (fun mm => mm.telephone == tel) = none →
      souscrire_engagement_membre gw db tel ms ds desc = (db, .errProfil))
    ∧ (∀ mem, db.membres.find? (fun mm => mm.telephone == tel) = some mem → ms = none →
      souscrire_engagement_membre gw db tel ms ds desc = (db, .errMontant))
    ∧ (∀ mem m, db.membres.find? (fun mm => mm.telephone == tel) = some mem →
      ms = some m → m ≤ 0 →
      souscrire_engagement_membre gw db tel ms ds desc = (db, .errMontant))
    ∧ (∀ mem m, db.membres.find? (fun mm => mm.telephone == tel) = some mem →
      ms = some m → 0 < m → ds = none →
      souscrire_engagement_membre gw db tel ms ds desc = (db, .errDate))
    ∧ (∀ mem m d, db.membres.find? (fun mm => mm.telephone == tel) = some mem →
      ms = some m → 0 < m → ds = some d →
      (souscrire_engagement_membre gw db tel ms ds desc).1.engagements
        = db.engagements ++ [nouvelEngagement db mem.id m d desc])
    ∧ (∀ m d, (nouvelEngagement db mid m d desc).statut = "en cours") := by
  refine ⟨fun h => ?_, fun mem hm hms => ?_, fun mem m hm hms hle => ?_,
    fun mem m hm hms hpos hds => ?_, fun mem m d hm hms hpos hds => ?_,
    fun h => ?_, fun mem hm hms => ?_, fun mem m hm hms hle => ?_,
    fun mem m hm hms hpos hds => ?_, fun mem m d hm hms hpos hds => ?_,
    fun m d => rfl⟩
  · unfold ajouter_engagement; rw [h]
  · unfold ajouter_engagement; rw [hm, hms]
  · unfold ajouter_engagement; rw [hm, hms]; exact if_pos hle
  · unfold ajouter_engagement
    simp only [hm, hms, hds]
    rw [if_neg (not_le.mpr hpos)]
  · unfold ajouter_engagement
    simp only [hm, hms, hds]
    rw [if_neg (not_le.mpr hpos)]
    repeat' split
    all_goals rfl
  · unfold souscrire_engagement_membre; rw [h]
  · unfold souscrire_engagement_membre; rw [hm, hms]
  · unfold souscrire_engagement_membre; rw [hm, hms]; exact if_pos hle
  · unfold souscrire_engagement_membre
    simp only [hm, hms, hds]
    rw [if_neg (not_le.mpr hpos)]
  · unfold souscrire_engagement_membre
    simp only [hm, hms, hds]
    rw [if_neg (not_le.mpr hpos)]

/-- Closed instances of C6: an unknown member id is rejected, and a
valid request appends one `"en cours"` commitment. -/
theorem createCommitment_validation_witness :
    ajouter_engagement gwOk dbCle 99 (some 50) (some 30) "d" = (dbCle, .errMembre)
    ∧ (ajouter_engagement gwOk dbCle 1 (some 50) (some 30) "d").1.engagements
        = [engCle, nouvelEngagement dbCle 1 50 30 "d"] := by
  constructor
  · exact (createCommitment_validation gwOk dbCle 99 "" "d" (some 50) (some 30)).1 rfl
  · exact (createCommitment_validation gwOk dbCle 1 "" "d"
      (some 50) (some 30)).2.2.2.2.1 membreCle 50 30 rfl rfl (by norm_num) rfl

/-! ## C3: a skipped notification writes no record, a send writes "envoyée" -/

/-- C3 amended: when the member is missing or fails the credential
check, the manual trigger makes no gateway call (third component 0) and
appends no `Notification` row — only a warning flash; when the
credential check passes, exactly one gateway call occurs and exactly
one record is appended, always with `statut = "envoyée"` (no
SKIPPED-style record exists on the skip path). -/
theorem notify_skip_appends_nothing (gw : GW) (now : ℕ) (db : DB) (eid : ℕ) :
    (∀ e, findEngagement db eid = some e → findMembre db e.membreId = none →
      notifier_membre_engagement gw now db eid = (db, .warned, 0))
    ∧ (∀ e m, findEngagement db eid = some e → findMembre db e.membreId = some m →
      hasCreds m = false →
      notifier_membre_engagement gw now db eid = (db, .warned, 0))
    ∧ (∀ e m, findEngagement db eid = some e → findMembre db e.membreId = some m →
      hasCreds m = true →
      notifier_membre_engagement gw now db eid =
        ({ db with notifications := db.notifications ++
            [⟨m.id, e.id, nomAffiche m, e.montantTotal, totalPaye db e.id,
              montant_restant db e, e.dateLimite, "envoyée", now⟩] },
         .sent, 1)) := by
  refine ⟨fun e he hm => ?_, fun e m he hm hc => ?_, fun e m he hm hc => ?_⟩
  · unfold notifier_membre_engagement
    simp only [he]
    rw [hm]
  · unfold notifier_membre_engagement
    simp only [he, hm]
    rw [if_neg (by simp [hc])]
  · unfold notifier_membre_engagement
    simp only [he, hm]
    rw [if_pos hc]

/-- C3 counterexample: on the store whose member has no API key, the
manual trigger leaves the store unchanged and calls the gateway zero
times — in particular no record with a SKIPPED outcome (or any other)
is appended, where the claim requires a `SKIPPED_NO_CREDENTIAL`
record. -/
theorem notify_skip_appends_nothing_cex :
    notifier_membre_engagement gwOk 9 dbSansCle 2 = (dbSansCle, .warned, 0)
    ∧ dbSansCle.notifications = [] := ⟨rfl, rfl⟩

/-- Closed instance of the send path of C3: on the credentialed store
the trigger reports success, calls the gateway once and appends one
record. -/
theorem notify_skip_appends_nothing_witness :
    (notifier_membre_engagement gwOk 9 dbCle 1).2 = (.sent, 1)
    ∧ (notifier_membre_engagement gwOk 9 dbCle 1).1.notifications.length = 1 := by
  have h := (notify_skip_appends_nothing gwOk 9 dbCle 1).2.2 engCle membreCle rfl rfl rfl
  rw [h]
  exact ⟨rfl, rfl⟩

/-! ## C2: the bulk trigger counts sends but appends no records -/

/-- The bulk loop, run on a list every credentialed member of which has
a card, returns the starting counter plus the number of credentialed
entries. -/
theorem notifTousGo_count (gw : GW) (db : DB) :
    ∀ (l : List Engagement) (cpt : ℕ),
      (∀ e ∈ l, ∀ m, findMembre db e.membreId = some m → hasCreds m = true →
        m.carte ≠ none) →
      notifTousGo gw db l cpt = .ok (cpt + l.countP (credentiale db)) := by
  intro l
  induction l with
  | nil => intro cpt _; simp [notifTousGo]
  | cons e rest ih =>
    intro cpt h
    have hrest := fun x hx => h x (List.mem_cons_of_mem _ hx)
    cases hfm : findMembre db e.membreId with
    | none =>
      simp only [notifTousGo, hfm]
      rw [ih cpt hrest]
      simp [List.countP_cons, credentiale, hfm]
    | some m =>
      cases hcred : hasCreds m with
      | false =>
        simp only [notifTousGo, hfm, hcred]
        simp only [Bool.false_eq_true, if_false]
        rw [ih cpt hrest]
        simp [List.countP_cons, credentiale, hfm, hcred]
      | true =>
        have hc := h e (List.mem_cons_self _ _) m hfm hcred
        cases hcarte : m.carte with
        | none => exact absurd hcarte hc
        | some c =>
          simp only [notifTousGo, hfm, hcred, hcarte, if_true]
          rw [ih (cpt + 1) hrest]
          have hce : credentiale db e = true := by simp [credentiale, hfm, hcred]
          simp [List.countP_cons, hce]
          omega

/-- C2 amended: provided every credentialed member of an unsettled
commitment has a linked card (otherwise the loop raises), the bulk
trigger returns the store *unchanged* — it appends no
`NotificationRecord` at all — together with a count of the gateway
sends, which covers only the credentialed members (skipped ones are
neither recorded nor counted); a gateway failure never aborts the loop
(the result is the same for every gateway). -/
theorem notifyAll_counts_sends_appends_nothing (gw : GW) (db : DB)
    (h : ∀ e ∈ nonPayes db, ∀ m, findMembre db e.membreId = some m →
      hasCreds m = true → m.carte ≠ none) :
    notifier_tous_membres gw db = .ok (db, (nonPayes db).countP (credentiale db)) := by
  unfold notifier_tous_membres
  rw [notifTousGo_count gw db (nonPayes db) 0 h]
  simp [Except.map]

/-- C2 counterexample: one OPEN commitment (N = 1) with a fully
credentialed member: the bulk trigger reports one attempt but the store
after the call is the input store, whose notification table is empty —
not the N = 1 appended `NotificationRecord`s the claim requires. -/
theorem notifyAll_appends_no_records_cex :
    notifier_tous_membres gwOk dbCle = .ok (dbCle, 1)
    ∧ dbCle.notifications = [] := ⟨rfl, rfl⟩

/-- Closed instance of C2 (amended) on the credential-less store: zero
sends are counted and the store is returned unchanged. -/
theorem notifyAll_counts_sends_appends_nothing_witness :
    notifier_tous_membres gwOk dbSansCle = .ok (dbSansCle, 0) := by
  have h := notifyAll_counts_sends_appends_nothing gwOk dbSansCle (by
    intro e he m hm hcred
    rw [show nonPayes dbSansCle = [engSansCle] from rfl] at he
    rw [List.mem_singleton] at he
    subst he
    rw [show findMembre dbSansCle engSansCle.membreId = some membreSansCle from rfl] at hm
    cases hm
    simp [hasCreds, truthyS, membreSansCle] at hcred)
  rw [h]
  rfl

/-! ## C5: the periodic tick is idempotent within a period; the manual
trigger is not -/

/-- A tick never touches the commitment table. -/
theorem runPeriodicTick_engagements (ps now : ℕ) (gw : GW) (db : DB) :
    (runPeriodicTick ps now gw db).engagements = db.engagements := rfl

/-- Every record a tick appends carries the id of its candidate. -/
theorem tickRecord_engagementId (gw : GW) (now : ℕ) (db : DB) (e : Engagement) :
    (tickRecord gw now db e).engagementId = e.id := by
  unfold tickRecord
  repeat' split
  all_goals rfl

/-- A tick's effect on the guard count decomposes over the append. -/
theorem tick_append_count (ps now : ℕ) (gw : GW) (db : DB) (eid : ℕ) :
    autoCountSince ps (runPeriodicTick ps now gw db) eid
      = autoCountSince ps db eid
        + ((candidats ps db).map (tickRecord gw now db)).countP (autoPred ps eid) := by
  unfold autoCountSince runPeriodicTick
  exact List.countP_append _ _ _

/-- The records one tick appends count toward `eid` at most as often as
`eid` occurs among the candidates. -/
theorem tick_delta_le (ps now : ℕ) (gw : GW) (db : DB) (eid : ℕ) :
    ((candidats ps db).map (tickRecord gw now db)).countP (autoPred ps eid)
      ≤ (candidats ps db).countP (fun e => e.id == eid) := by
  rw [List.countP_map]
  refine List.countP_mono_left (fun e _ hp => ?_)
  simp only [Function.comp_apply, autoPred, Bool.and_eq_true] at hp
  have h1 := hp.1.1
  rwa [tickRecord_engagementId] at h1

/-- With distinct commitment ids, at most one candidate carries `eid`. -/
theorem candidate_count_le_one (ps : ℕ) (db : DB) (eid : ℕ)
    (hnodup : (db.engagements.map Engagement.id).Nodup) :
    (candidats ps db).countP (fun e => e.id == eid) ≤ 1 := by
  have h1 : (candidats ps db).countP (fun e => e.id == eid)
      ≤ db.engagements.countP (fun e => e.id == eid) :=
    (List.filter_sublist _).countP_le _
  have h2 : (db.engagements.map Engagement.id).count eid
      = db.engagements.countP (fun e => e.id == eid) := by
    show (db.engagements.map Engagement.id).countP (· == eid) = _
    rw [List.countP_map]
    rfl
  have h3 := List.nodup_iff_count_le_one.mp hnodup eid
  omega

/-- A commitment that is still a candidate has a zero guard count. -/
theorem candidate_auto_zero (ps : ℕ) (db : DB) (eid : ℕ) (e : Engagement)
    (he : e ∈ candidats ps db) (hid : e.id = eid) :
    autoCountSince ps db eid = 0 := by
  unfold candidats at he
  rw [List.mem_filter] at he
  obtain ⟨-, hcond⟩ := he
  simp only [Bool.and_eq_true, Bool.not_eq_true'] at hcond
  have hfalse : hasAutoSince db eid ps = false := hid ▸ hcond.2
  unfold hasAutoSince at hfalse
  unfold autoCountSince
  rw [List.countP_eq_zero]
  intro a ha hp
  have hany : db.notifications.any (autoPred ps eid) = true :=
    List.any_eq_true.mpr ⟨a, ha, hp⟩
  rw [hany] at hfalse
  exact absurd hfalse (by simp)

/-- One tick keeps every commitment's guard count at most one. -/
theorem tick_keeps_auto_le_one (ps now : ℕ) (gw : GW) (db : DB) (eid : ℕ)
    (hnodup : (db.engagements.map Engagement.id).Nodup)
    (h : autoCountSince ps db eid ≤ 1) :
    autoCountSince ps (runPeriodicTick ps now gw db) eid ≤ 1 := by
  have hsum := tick_append_count ps now gw db eid
  have hdelta := tick_delta_le ps now gw db eid
  by_cases hc : ∃ e ∈ candidats ps db, e.id = eid
  · obtain ⟨e, he, hid⟩ := hc
    have h0 := candidate_auto_zero ps db eid e he hid
    have h1 := candidate_count_le_one ps db eid hnodup
    omega
  · push_neg at hc
    have h0 : (candidats ps db).countP (fun e => e.id == eid) = 0 := by
      rw [List.countP_eq_zero]
      intro a ha hp
      exact hc a ha (by simpa using hp)
    omega

/-- The shape of the manual trigger's sending branch. -/
theorem notifOne_send_eq (gw : GW) (now : ℕ) (db : DB) (eid : ℕ)
    (e : Engagement) (m : Membre)
    (he : findEngagement db eid = some e) (hm : findMembre db e.membreId = some m)
    (hc : hasCreds m = true) :
    notifier_membre_engagement gw now db eid =
      ({ db with notifications := db.notifications ++
          [⟨m.id, e.id, nomAffiche m, e.montantTotal, totalPaye db e.id,
            montant_restant db e, e.dateLimite, "envoyée", now⟩] }, .sent, 1) := by
  unfold notifier_membre_engagement
  simp only [he, hm]
  rw [if_pos hc]

/-- What the sending branch does to table sizes. -/
theorem notifOne_send_len (gw : GW) (now : ℕ) (db : DB) (eid : ℕ)
    (e : Engagement) (m : Membre)
    (he : findEngagement db eid = some e) (hm : findMembre db e.membreId = some m)
    (hc : hasCreds m = true) :
    (notifier_membre_engagement gw now db eid).1.notifications.length
        = db.notifications.length + 1
    ∧ (notifier_membre_engagement gw now db eid).1.engagements = db.engagements
    ∧ (notifier_membre_engagement gw now db eid).1.membres = db.membres := by
  rw [notifOne_send_eq gw now db eid e m he hm hc]
  refine ⟨?_, rfl, rfl⟩
  simp

/-- The manual trigger's skip branch leaves the store untouched. -/
theorem notifOne_skip_eq (gw : GW) (now : ℕ) (db : DB) (eid : ℕ) (e : Engagement)
    (he : findEngagement db eid = some e)
    (hcred : credentialedTarget db eid = false) :
    notifier_membre_engagement gw now db eid = (db, .warned, 0) := by
  unfold credentialedTarget at hcred
  simp only [he] at hcred
  unfold notifier_membre_engagement
  simp only [he]
  cases hm : findMembre db e.membreId with
  | none => rfl
  | some m =>
    simp only [hm] at hcred
    exact if_neg (by simp [hcred])

/-- C5 amended: with distinct commitment ids and a period that starts
with no automatic records, running the spec-modelled periodic tick
twice leaves every commitment with at most one SENT/FAILED record for
the period; the manual trigger, run twice on the same commitment,
appends two records when the member passes the credential check and
none at all otherwise (so "always two records" holds only for
credentialed members). -/
theorem tick_idempotent_manual_repeats (ps now1 now2 : ℕ) (gw : GW) (db : DB)
    (hnodup : (db.engagements.map Engagement.id).Nodup)
    (hclean : ∀ eid, autoCountSince ps db eid = 0) :
    (∀ eid, autoCountSince ps
        (runPeriodicTick ps now2 gw (runPeriodicTick ps now1 gw db)) eid ≤ 1)
    ∧ (∀ (db' : DB) (gw' : GW) (now' eid : ℕ) (e : Engagement) (m : Membre),
        findEngagement db' eid = some e → findMembre db' e.membreId = some m →
        hasCreds m = true →
        ((notifier_membre_engagement gw' now'
            (notifier_membre_engagement gw' now' db' eid).1 eid).1).notifications.length
          = db'.notifications.length + 2)
    ∧ (∀ (db' : DB) (gw' : GW) (now' eid : ℕ) (e : Engagement),
        findEngagement db' eid = some e → credentialedTarget db' eid = false →
        ((notifier_membre_engagement gw' now'
            (notifier_membre_engagement gw' now' db' eid).1 eid).1) = db') := by
  refine ⟨fun eid => ?_, fun db' gw' now' eid e m he hm hc => ?_,
    fun db' gw' now' eid e he hcred => ?_⟩
  · have h1 : autoCountSince ps (runPeriodicTick ps now1 gw db) eid ≤ 1 :=
      tick_keeps_auto_le_one ps now1 gw db eid hnodup
        (by rw [hclean eid]; exact Nat.zero_le 1)
    exact tick_keeps_auto_le_one ps now2 gw _ eid hnodup h1
  · obtain ⟨hl1, heng1, hmem1⟩ := notifOne_send_len gw' now' db' eid e m he hm hc
    have he' : findEngagement (notifier_membre_engagement gw' now' db' eid).1 eid
        = some e := by
      unfold findEngagement
      rw [heng1]
      exact he
    have hm' : findMembre (notifier_membre_engagement gw' now' db' eid).1 e.membreId
        = some m := by
      unfold findMembre
      rw [hmem1]
      exact hm
    obtain ⟨hl2, -, -⟩ := notifOne_send_len gw' now'
      (notifier_membre_engagement gw' now' db' eid).1 eid e m he' hm' hc
    omega
  · have h1 := notifOne_skip_eq gw' now' db' eid e he hcred
    rw [h1, h1]

/-- C5 counterexample: on the store whose member has no credential, the
manual trigger invoked twice appends no record at all — the store is
returned unchanged with an empty notification table — where the claim
requires that `notifyOne` invoked twice *always* produces two
records. -/
theorem notifyOne_twice_no_records_cex :
    (notifier_membre_engagement gwOk 9
        (notifier_membre_engagement gwOk 9 dbSansCle 2).1 2).1 = dbSansCle
    ∧ dbSansCle.notifications = [] := ⟨rfl, rfl⟩

/-- Closed instance of C5: two ticks over the credentialed store leave
commitment 1 with at most one automatic record for the period. -/
theorem tick_idempotent_manual_repeats_witness :
    autoCountSince 10 (runPeriodicTick 10 11 gwOk (runPeriodicTick 10 10 gwOk dbCle)) 1
      ≤ 1 :=
  (tick_idempotent_manual_repeats 10 10 11 gwOk dbCle (by decide) (fun _ => rfl)).1 1

/-! ## C8: binary floating point cannot carry 2-decimal currency exactly -/

/-- C8 (the defect the spec's §9 flags): the source's amounts pass
through Python `float`, so only `isF64` values can be stored.  A
quarter (0.25) is representable, but the 2-decimal currency value 0.10
is equal to no binary64 value at all, so storing it loses precision —
exact decimal round-tripping fails on the very first ledger operation. -/
theorem float_amounts_cannot_hold_ten_cents :
    isF64 (1 / 4 : ℚ) ∧ ¬ isF64 (1 / 10 : ℚ) := by
  constructor
  · exact ⟨1, -2, by norm_num, by norm_num⟩
  · rintro ⟨m, e, -, heq⟩
    rcases e with k | k
    · rw [Int.ofNat_eq_coe, zpow_natCast] at heq
      have h1 : ((10 * m * 2 ^ k : ℤ) : ℚ) = 1 := by
        push_cast
        rw [mul_assoc, ← heq]
        norm_num
      have h2 : (10 * m * 2 ^ k : ℤ) = 1 := by exact_mod_cast h1
      have h3 : (2 : ℤ) ∣ 1 := ⟨5 * m * 2 ^ k, by linarith⟩
      norm_num at h3
    · rw [zpow_negSucc] at heq
      have hpow : ((2 : ℚ) ^ (k + 1)) ≠ 0 := by positivity
      have h1 : ((2 ^ (k + 1) : ℤ) : ℚ) = ((10 * m : ℤ) : ℚ) := by
        push_cast
        field_simp at heq
        linarith
      have h2 : (2 ^ (k + 1) : ℤ) = 10 * m := by exact_mod_cast h1
      have h5 : (5 : ℤ) ∣ 2 ^ (k + 1) := ⟨2 * m, by linarith⟩
      have hp : Prime (5 : ℤ) := by norm_num
      have h6 := hp.dvd_of_dvd_pow h5
      norm_num at h6
